import Mathlib

/-!
Verification of the socket-lemur repository specification against a shallow
embedding of its source. The embedding covers:

1. the web-push delivery engine (src/src/lib/web-push-lemur/index.ts):
   validateSubscription, send, retrySend, with the delivery transport
   (webPush.sendNotification) modelled as an oracle giving the outcome of
   the k-th delivery call, and a fuel parameter making the mutual
   send / retrySend recursion total (a result of none means the promise
   chain never settles within any finite number of steps, i.e. divergence);
2. the socket server dispatch core (src/src/socketServer.ts):
   channel / customChannel registration, the token gate of handleEvent,
   the handler try/catch, room join/leave bookkeeping, and the shared
   server-level authorization field written by the middleware;
3. the push-enabled server variant (the unnamed source file holding the
   overloaded channel / customChannel with a WebPushLemur argument).
-/

/-! ## Web push delivery engine -/

/-- The keys object of a push subscription record. A field is none when the
JS value is undefined (absent); a present string models a JS string value. -/
structure SubKeys where
  p256dh : Option String
  auth : Option String
deriving DecidableEq, Repr

/-- A push subscription record. The id field models the value of
subscription[key] used by WebPushLemur.delete on a 410 error. -/
structure Subscription where
  id : String
  endpoint : Option String
  keys : Option SubKeys
deriving DecidableEq, Repr

/-- Errors of the delivery engine. invalidEndpoint / invalidKeys are the two
exceptions thrown by validateSubscription; gone is a delivery error whose
statusCode is 410; network is any other delivery error. -/
inductive PushError where
  | invalidEndpoint
  | invalidKeys
  | gone
  | network
deriving DecidableEq, Repr

/-- WebPushLemur.validateSubscription: throws when the endpoint is absent or
the empty string (JS falsy check), or when keys is absent, or when either
keys.p256dh or keys.auth is not a string (typeof check: an absent field is
undefined and fails it; note an empty string passes the typeof check). -/
def validateSubscription (s : Subscription) : Except PushError Unit :=
  match s.endpoint with
  | none => Except.error PushError.invalidEndpoint
  | some e =>
    if e = "" then Except.error PushError.invalidEndpoint
    else
      match s.keys with
      | none => Except.error PushError.invalidKeys
      | some k =>
        match k.p256dh, k.auth with
        | some _, some _ => Except.ok ()
        | _, _ => Except.error PushError.invalidKeys

/-- Outcome of one webPush.sendNotification call: resolve, reject with
statusCode 410, or reject with any other (transient) error. -/
inductive DeliverResult where
  | ok
  | gone
  | fail
deriving DecidableEq, Repr

/-- Observable state of one WebPushLemur instance: the number of
webPush.sendNotification calls made so far (the index into the delivery
oracle), the subscription store (ids only), the three metrics counters,
and the number of sleep calls performed by retrySend. -/
structure PushState where
  calls : Nat
  store : List String
  successful : Nat
  failed : Nat
  retried : Nat
  sleeps : Nat
deriving DecidableEq, Repr

/-- The settings.retrySend object; a none field models an absent value. -/
structure RetrySettings where
  retries : Option Nat
  delay : Option Nat
deriving DecidableEq, Repr

/-- The default-argument expression settings?.retrySend?.retries || 3 of
retrySend: 0 is falsy in JS, so a configured 0 also yields 3. -/
def retriesOrDefault (s : RetrySettings) : Nat :=
  match s.retries with
  | some n => if n = 0 then 3 else n
  | none => 3

/-- The default-argument expression settings?.retrySend?.delay || 2000. -/
def delayOrDefault (s : RetrySettings) : Nat :=
  match s.delay with
  | some d => if d = 0 then 2000 else d
  | none => 2000

/-- Result of an async call: none means the promise never settles within the
given fuel; some (st, Except.ok ()) means it resolved leaving state st;
some (st, Except.error e) means it rejected with e, leaving state st. -/
abbrev PushRes := Option (PushState × Except PushError Unit)

/-- One fuel level of the mutually recursive pair (send, retrySend) of
WebPushLemur, returned as (send at this fuel, retrySend at this fuel).
cfg is the resolved retries count (retriesOrDefault of the settings),
o the delivery oracle, sub the subscription being sent to.

send (first component), from the source:
  try: validateSubscription; JSON.stringify (pure);
       await webPush.sendNotification (consult the oracle, advance calls);
       log; increment successful
  catch e: log; if e.statusCode is 410 then delete the record from the store
       and fall through; else await retrySend; then increment failed.
  A validation throw consults no oracle entry (no network call). Exceptions
  raised inside the catch block itself are not caught and propagate.

retrySend (second component), from the source: a for loop over
attempt = 1..retries; per iteration: try await send then increment retried
and return; on a rejection, return if attempt equals retries, else sleep
and continue. The payload argument does not influence any modelled
observable and is omitted. -/
def pushEngine (cfg : Nat) (o : Nat → DeliverResult) (sub : Subscription) :
    Nat → ((PushState → PushRes) × (Nat → PushState → PushRes))
  | 0 => (fun _ => none, fun _ _ => none)
  | fuel + 1 =>
    let prev := pushEngine cfg o sub fuel
    let sendBody : PushState → PushRes := fun st =>
      match validateSubscription sub with
      | Except.error _ =>
        match prev.2 cfg st with
        | none => none
        | some (st1, Except.ok _) =>
          some ({ st1 with failed := st1.failed + 1 }, Except.ok ())
        | some (st1, Except.error e1) => some (st1, Except.error e1)
      | Except.ok _ =>
        match o st.calls with
        | DeliverResult.ok =>
          some ({ st with calls := st.calls + 1, successful := st.successful + 1 },
            Except.ok ())
        | DeliverResult.gone =>
          let st1 := { st with calls := st.calls + 1 }
          some ({ st1 with store := st1.store.erase sub.id, failed := st1.failed + 1 },
            Except.ok ())
        | DeliverResult.fail =>
          match prev.2 cfg { st with calls := st.calls + 1 } with
          | none => none
          | some (st1, Except.ok _) =>
            some ({ st1 with failed := st1.failed + 1 }, Except.ok ())
          | some (st1, Except.error e1) => some (st1, Except.error e1)
    let retryBody : Nat → PushState → PushRes := fun attempts st =>
      match attempts with
      | 0 => some (st, Except.ok ())
      | rest + 1 =>
        match prev.1 st with
        | none => none
        | some (st1, Except.ok _) =>
          some ({ st1 with retried := st1.retried + 1 }, Except.ok ())
        | some (st1, Except.error _) =>
          if rest = 0 then some (st1, Except.ok ())
          else prev.2 rest { st1 with sleeps := st1.sleeps + 1 }
    (sendBody, retryBody)

/-- WebPushLemur.send at a given fuel. -/
def send (cfg : Nat) (o : Nat → DeliverResult) (sub : Subscription)
    (fuel : Nat) (st : PushState) : PushRes :=
  (pushEngine cfg o sub fuel).1 st

/-- WebPushLemur.retrySend at a given fuel, with attempts iterations left. -/
def retrySend (cfg : Nat) (o : Nat → DeliverResult) (sub : Subscription)
    (fuel attempts : Nat) (st : PushState) : PushRes :=
  (pushEngine cfg o sub fuel).2 attempts st

/-- True unless the call rejected: a caller of the async function can observe
a rejection exactly when this is false. -/
def noRejectB : PushRes → Bool
  | some (_, Except.error _) => false
  | _ => true

/-- A shape-valid subscription record. -/
def goodSub : Subscription :=
  { id := "s1", endpoint := some "https://example.com/ep",
    keys := some { p256dh := some "p256", auth := some "authkey" } }

/-- A subscription record whose keys.auth is missing. -/
def badSub : Subscription :=
  { id := "s1", endpoint := some "https://example.com/ep",
    keys := some { p256dh := some "p256", auth := none } }

/-- A delivery oracle under which every delivery attempt rejects with a
transient (non-410) error. -/
def alwaysFail : Nat → DeliverResult := fun _ => DeliverResult.fail

/-- A delivery oracle under which the first n delivery attempts reject with a
transient error and every later one resolves. -/
def failsThen (n : Nat) : Nat → DeliverResult :=
  fun k => if k < n then DeliverResult.fail else DeliverResult.ok

/-- Fresh engine state holding one stored subscription id. -/
def initialPushState : PushState :=
  { calls := 0, store := ["s1"], successful := 0, failed := 0, retried := 0,
    sleeps := 0 }

/-! ## Socket server dispatch core -/

/-- A decoded JWT payload: key-value pairs of the session object. The length
of this list is the value of Object.keys(session).length. -/
abbrev SessionPayload := List (String × String)

/-- The jwt.verify collaborator: some payload when verification succeeds,
none when it throws (malformed token, bad signature, empty token string). -/
abbrev Verify := String → String → Option SessionPayload

/-- String.replace of all spaces by the empty string, on the character list. -/
def stripSpaces : List Char → List Char
  | [] => []
  | c :: rest => if c = ' ' then stripSpaces rest else c :: stripSpaces rest

/-- String.replace of every occurrence of Bearer by the empty string:
left-to-right, non-overlapping, continuing after each removed match. -/
def stripBearerChars : List Char → List Char
  | [] => []
  | 'B' :: 'e' :: 'a' :: 'r' :: 'e' :: 'r' :: rest => stripBearerChars rest
  | c :: rest => c :: stripBearerChars rest

/-- The normalisation in SocketServer.validToken:
authorization.replace(/Bearer/g, ...).replace(/ /g, ...). -/
def stripBearer (s : String) : String :=
  String.mk (stripSpaces (stripBearerChars s.data))

/-- TokenManager.extract: jwt.verify wrapped in a try/catch that returns
undefined (none) on a verification error. It never throws. -/
def extract (v : Verify) (token secret : String) : Option SessionPayload :=
  v token secret

/-- SocketServer.validToken: strip the scheme prefix and spaces, then call
extract. The surrounding try/catch is dead because extract never throws, so
an invalid token yields undefined (none), not the empty object. -/
def validToken (v : Verify) (secret authorization : String) :
    Option SessionPayload :=
  extract v (stripBearer authorization) secret

/-- JS a || b for an optional string a: undefined and the empty string are
falsy and select b. -/
def jsOrS : Option String → String → String
  | some s, d => if s = "" then d else s
  | none, d => d

/-- JS truthiness of an optional string value. -/
def truthyS : Option String → Bool
  | some s => !(s == "")
  | none => false

/-- A channel configuration in the plain server (no push manager). The
handler function itself is identified by an opaque id; its behaviour on a
given request is supplied separately at dispatch time. -/
structure Channel where
  handlerId : Nat
  tokenRequired : Bool
  roomSupport : Bool
deriving DecidableEq, Repr

/-- The channels Map of the server: an insertion-ordered association list
with no duplicate keys (Map.set is only called on absent keys). -/
abbrev Registry := List (String × Channel)

/-- SocketServer.channel: return unchanged when the name is already
configured, otherwise store the configuration. -/
def channel (reg : Registry) (name : String) (cfg : Channel) : Registry :=
  if (reg.lookup name).isSome then reg else reg ++ [(name, cfg)]

/-- SocketServer.customChannel: identical registration logic. -/
def customChannel (reg : Registry) (name : String) (cfg : Channel) : Registry :=
  if (reg.lookup name).isSome then reg else reg ++ [(name, cfg)]

/-- The params object of an inbound message; reserved keys only. -/
structure Params where
  authorization : Option String
  room : Option String
deriving DecidableEq, Repr

/-- The behaviour of the registered handler on the current request: it may
return normally (or return a promise that resolves), throw an Error object
synchronously, throw a raw non-Error value synchronously, or return a
promise that rejects. -/
inductive HandlerOutcome where
  | done
  | throwMsg (m : String)
  | throwRaw (v : String)
  | rejected (m : String)
deriving DecidableEq, Repr

/-- Where an emission is addressed: io.to(room) or socket.emit. -/
inductive Target where
  | toRoom (r : String)
  | toSocket (sid : Nat)
deriving DecidableEq, Repr

/-- One outbound event: its full event name, its target, and its payload
(for error events, the error field of the emitted object). -/
structure Emission where
  event : String
  target : Target
  payload : String
deriving DecidableEq, Repr

/-- Everything observable about one handleEvent call: the events it emitted,
whether the registered handler was invoked, a synchronous exception escaping
handleEvent (uncaught, propagating into the transport layer), an unhandled
promise rejection escaping it, and the session attached to socket and
request. -/
structure DispatchResult where
  emissions : List Emission
  handlerInvoked : Bool
  thrown : Option String
  unhandledRejection : Option String
  sessionAttached : Option SessionPayload
deriving DecidableEq, Repr

/-- The error payload of the failed token gate. -/
def unauthorizedMsg : String := "Unauthorized access: No valid session found."

/-- The JS TypeError raised by Object.keys(undefined). -/
def typeErrorMsg : String := "TypeError: Object.keys called on undefined"

/-- The expression room || socket used by the success and error emitters:
an absent or empty room name falls back to the originating socket. -/
def errTarget (room : Option String) (sid : Nat) : Target :=
  match room with
  | some r => if r = "" then Target.toSocket sid else Target.toRoom r
  | none => Target.toSocket sid

/-- The handler invocation of handleEvent, inside its try/catch: a
synchronous throw is caught and emitted as name:error with the error message
(or the raw thrown value when it has no message); a returned promise is not
awaited, so a rejection escapes the catch as an unhandled rejection. Both
the simple and the socket-context handler shapes are invoked inside the same
try block, so they behave identically here. -/
def invokeHandler (channelName : String) (tgt : Target)
    (outcome : HandlerOutcome) (sess : Option SessionPayload) : DispatchResult :=
  match outcome with
  | HandlerOutcome.done =>
    { emissions := [], handlerInvoked := true, thrown := none,
      unhandledRejection := none, sessionAttached := sess }
  | HandlerOutcome.throwMsg m =>
    { emissions := [{ event := channelName ++ ":error", target := tgt, payload := m }],
      handlerInvoked := true, thrown := none, unhandledRejection := none,
      sessionAttached := sess }
  | HandlerOutcome.throwRaw v =>
    { emissions := [{ event := channelName ++ ":error", target := tgt, payload := v }],
      handlerInvoked := true, thrown := none, unhandledRejection := none,
      sessionAttached := sess }
  | HandlerOutcome.rejected m =>
    { emissions := [], handlerInvoked := true, thrown := none,
      unhandledRejection := some m, sessionAttached := sess }

/-- SocketServer.handleEvent. serverAuth is the current value of the shared
this.authorization field; secret is settings?.secret. The token is
this.authorization || params.authorization || the empty string. When
tokenRequired and the secret is truthy, validToken is consulted: an
undefined result makes Object.keys(session) throw a TypeError out of
handleEvent (before the try block); an empty decoded object emits exactly
one name:error event with the unauthorized message to the room or socket
and returns; a non-empty object is attached as the session. When the secret
is absent or empty, the gate is skipped entirely. -/
def handleEvent (v : Verify) (secret : Option String) (serverAuth : Option String)
    (channelName : String) (sid : Nat) (params : Params)
    (outcome : HandlerOutcome) (tokenRequired : Bool) : DispatchResult :=
  let token := jsOrS serverAuth (jsOrS params.authorization "")
  let tgt := errTarget params.room sid
  if tokenRequired && truthyS secret then
    match validToken v (secret.getD "") token with
    | none =>
      { emissions := [], handlerInvoked := false, thrown := some typeErrorMsg,
        unhandledRejection := none, sessionAttached := none }
    | some payload =>
      if payload.length = 0 then
        let em : Emission :=
          { event := channelName ++ ":error", target := tgt, payload := unauthorizedMsg }
        { emissions := [em], handlerInvoked := false, thrown := none,
          unhandledRejection := none, sessionAttached := none }
      else invokeHandler channelName tgt outcome (some payload)
  else invokeHandler channelName tgt outcome none

/-! ## Room membership bookkeeping -/

/-- The rooms index: room key to member socket ids, insertion ordered, no
duplicate keys. Timestamps of the ExpiringMap are not modelled: no sweep
fires within the scenarios below, and no claim mentions expiration. -/
abbrev Rooms := List (String × List Nat)

/-- ExpiringMap.has. -/
def roomsHas (rs : Rooms) (k : String) : Bool :=
  (rs.lookup k).isSome

/-- Map.set: replace the value in place when the key exists (preserving its
position), otherwise append the new entry. -/
def setRoom (rs : Rooms) (k : String) (v : List Nat) : Rooms :=
  if roomsHas rs k then
    rs.map (fun p => if p.1 = k then (k, v) else p)
  else rs ++ [(k, v)]

/-- Set.add of a socket: a no-op when already a member, else append. -/
def addMember (ms : List Nat) (sid : Nat) : List Nat :=
  if sid ∈ ms then ms else ms ++ [sid]

/-- SocketServer.handleRoomJoin: create the member set when absent, then add
the socket to it. The transport-level socket.join call is outside the model. -/
def handleRoomJoin (rs : Rooms) (sid : Nat) (room : String) : Rooms :=
  let rs1 := if roomsHas rs room then rs else setRoom rs room []
  setRoom rs1 room (addMember ((rs1.lookup room).getD []) sid)

/-- SocketServer.handleRoomLeave: when the room exists, delete the socket
from its member set and delete the room entry when the set became empty. -/
def handleRoomLeave (rs : Rooms) (sid : Nat) (room : String) : Rooms :=
  if roomsHas rs room then
    let ms := ((rs.lookup room).getD []).filter (fun x => !(x == sid))
    if ms.length = 0 then rs.filter (fun p => !(p.1 == room))
    else setRoom rs room ms
  else rs

/-- The per-connection transport events relevant to room bookkeeping. -/
inductive RoomEvent where
  | join (chName room : String)
  | leave (chName room : String)
  | disconnect
deriving DecidableEq, Repr

/-- Whether a registered channel has room support (unregistered channels
have no listeners at all). -/
def roomSupportOf (reg : Registry) (c : String) : Bool :=
  match reg.lookup c with
  | some cfg => cfg.roomSupport
  | none => false

/-- One step of the listener wiring installed by SocketServer.connection:
name:join and name:leave listeners exist only for channels registered with
roomSupport, and the disconnect listener only runs the optional user off
callback — it does not touch the rooms index. -/
def step (reg : Registry) (rs : Rooms) (sid : Nat) : RoomEvent → Rooms
  | RoomEvent.join c r =>
    if roomSupportOf reg c then handleRoomJoin rs sid r else rs
  | RoomEvent.leave c r =>
    if roomSupportOf reg c then handleRoomLeave rs sid r else rs
  | RoomEvent.disconnect => rs

/-- Process a sequence of room events for one connection. -/
def runRooms (reg : Registry) (sid : Nat) (evs : List RoomEvent) (rs : Rooms) :
    Rooms :=
  evs.foldl (fun acc e => step reg acc sid e) rs

/-! ## Shared authorization field across connections -/

/-- Server-level events: a connect runs the middleware (which stores the
handshake authorization header into the single shared this.authorization
field, before any API-key check), and a message dispatches handleEvent with
the current value of that field. -/
inductive ConnEvent where
  | connect (sid : Nat) (authHeader : Option String)
  | message (sid : Nat) (chName : String) (params : Params)
      (outcome : HandlerOutcome) (tokenRequired : Bool)
deriving DecidableEq, Repr

/-- Process server events in order, returning the dispatch results of the
messages. The accumulator is the current value of this.authorization. -/
def runAuth (v : Verify) (secret : Option String) :
    Option String → List ConnEvent → List DispatchResult
  | _, [] => []
  | _, ConnEvent.connect _ h :: rest => runAuth v secret h rest
  | a, ConnEvent.message sid c p oc tr :: rest =>
    handleEvent v secret a c sid p oc tr :: runAuth v secret a rest

/-- A concrete jwt.verify collaborator: only the token good under the secret
s verifies, to a one-key session object. -/
def demoVerify : Verify :=
  fun tok sec => if tok = "good" && sec = "s" then some [("id", "1")] else none

/-- A jwt.verify collaborator under which the token empty decodes to the
empty object and good decodes to a one-key object. -/
def emptyishVerify : Verify :=
  fun tok sec =>
    if tok = "good" && sec = "s" then some [("id", "1")]
    else if tok = "empty" && sec = "s" then some []
    else none

/-- The C7 scenario: connection 0 handshakes with no header, connection 1
handshakes with header b, then connection 0 sends a message with no
per-message authorization on a tokenRequired channel. -/
def leakScenario (b : Option String) : List ConnEvent :=
  [ConnEvent.connect 0 none, ConnEvent.connect 1 b,
   ConnEvent.message 0 "ch" { authorization := none, room := none }
     HandlerOutcome.done true]

/-! ## Push-enabled server variant (overloaded channel registration) -/

/-- A trailing argument of the overloaded channel and customChannel methods:
a boolean (tokenRequired or roomSupport) or a WebPushLemur instance. -/
inductive ChanArg where
  | bool (b : Bool)
  | push
deriving DecidableEq, Repr

/-- A channel configuration of the push-enabled server variant. -/
structure ChannelP where
  handlerId : Nat
  tokenRequired : Bool
  roomSupport : Bool
  hasPushManager : Bool
deriving DecidableEq, Repr

/-- The channels Map of the push-enabled server variant. -/
abbrev RegistryP := List (String × ChannelP)

/-- The fixed qualification suffix appended to the stored channel key when a
push manager is supplied, exactly as spelled in the source. -/
def pushSuffix : String := ":push-notifiation"

/-- The guard isWebPushLemur applied to an optional argument slot: on an
absent slot (undefined) the property access inside the guard throws a
TypeError; on a boolean it is false; on a WebPushLemur instance true. -/
def isWebPushLemurJS : Option ChanArg → Except Unit Bool
  | none => Except.error ()
  | some (ChanArg.bool _) => Except.ok false
  | some ChanArg.push => Except.ok true

/-- typeof args[i] === the boolean type, for an optional argument slot. -/
def boolArg : Option ChanArg → Option Bool
  | some (ChanArg.bool b) => some b
  | _ => none

/-- The channel method of the push-enabled variant. ds is the registry
default for roomSupport (roomExpirationTime().state). tokenRequired is
args[0] when it is a boolean, else false; roomSupport is args[1] when it is
a boolean, else the default; the push manager is taken from whichever of
args[0], args[1], args[2] passes the isWebPushLemur guard (each of the three
slots is probed unconditionally, so an absent probed slot throws); when a
push manager is present the stored key is the name with the qualification
suffix appended. Registration of an already-present key is a no-op. -/
def channelP (ds : Bool) (reg : RegistryP) (name : String) (h : Nat)
    (args : List ChanArg) : Except Unit RegistryP :=
  let tokenRequired := (boolArg args[0]?).getD false
  let roomSupport := (boolArg args[1]?).getD ds
  match isWebPushLemurJS args[0]? with
  | Except.error _ => Except.error ()
  | Except.ok p0 =>
    match isWebPushLemurJS args[1]? with
    | Except.error _ => Except.error ()
    | Except.ok p1 =>
      match isWebPushLemurJS args[2]? with
      | Except.error _ => Except.error ()
      | Except.ok p2 =>
        let pm := p0 || p1 || p2
        let channelName := if pm then name ++ pushSuffix else name
        if (reg.lookup channelName).isSome then Except.ok reg
        else Except.ok (reg ++ [(channelName,
          { handlerId := h, tokenRequired := tokenRequired,
            roomSupport := roomSupport, hasPushManager := pm })])

/-- The customChannel method of the push-enabled variant: identical, except
the push manager is probed only at args[0]. -/
def customChannelP (ds : Bool) (reg : RegistryP) (name : String) (h : Nat)
    (args : List ChanArg) : Except Unit RegistryP :=
  let tokenRequired := (boolArg args[0]?).getD false
  let roomSupport := (boolArg args[1]?).getD ds
  match isWebPushLemurJS args[0]? with
  | Except.error _ => Except.error ()
  | Except.ok pm =>
    let channelName := if pm then name ++ pushSuffix else name
    if (reg.lookup channelName).isSome then Except.ok reg
    else Except.ok (reg ++ [(channelName,
      { handlerId := h, tokenRequired := tokenRequired,
        roomSupport := roomSupport, hasPushManager := pm })])

/-- The event name of a success emission for a stored channel key, from the
success method: channel and the success suffix. -/
def successEventName (c : String) : String := c ++ ":success"

/-- The event name of an error emission for a stored channel key, from the
error method: channel and the error suffix. -/
def errorEventName (c : String) : String := c ++ ":error"

/-- A registry holding one room-enabled channel. -/
def roomRegOne : Registry :=
  [("chat", { handlerId := 0, tokenRequired := false, roomSupport := true })]

/-- A registry holding two distinct room-enabled channels. -/
def roomRegTwo : Registry :=
  [("c1", { handlerId := 0, tokenRequired := false, roomSupport := true }),
   ("c2", { handlerId := 1, tokenRequired := false, roomSupport := true })]

/-- An error emission as constructed by the error method: the channel name
with the error suffix, a target, and the error payload. -/
def errEmission (ch : String) (tgt : Target) (msg : String) : Emission :=
  { event := ch ++ ":error", target := tgt, payload := msg }

/-! ## Unfolding equations for the delivery engine -/

theorem send_zero (cfg : Nat) (o : Nat → DeliverResult) (sub : Subscription)
    (st : PushState) : send cfg o sub 0 st = none := rfl

theorem send_succ (cfg : Nat) (o : Nat → DeliverResult) (sub : Subscription)
    (fuel : Nat) (st : PushState) :
    send cfg o sub (fuel + 1) st =
      (match validateSubscription sub with
      | Except.error _ =>
        match retrySend cfg o sub fuel cfg st with
        | none => none
        | some (st1, Except.ok _) =>
          some ({ st1 with failed := st1.failed + 1 }, Except.ok ())
        | some (st1, Except.error e1) => some (st1, Except.error e1)
      | Except.ok _ =>
        match o st.calls with
        | DeliverResult.ok =>
          some ({ st with calls := st.calls + 1, successful := st.successful + 1 },
            Except.ok ())
        | DeliverResult.gone =>
          let st1 := { st with calls := st.calls + 1 }
          some ({ st1 with store := st1.store.erase sub.id, failed := st1.failed + 1 },
            Except.ok ())
        | DeliverResult.fail =>
          match retrySend cfg o sub fuel cfg { st with calls := st.calls + 1 } with
          | none => none
          | some (st1, Except.ok _) =>
            some ({ st1 with failed := st1.failed + 1 }, Except.ok ())
          | some (st1, Except.error e1) => some (st1, Except.error e1)) := rfl

theorem retrySend_zero (cfg : Nat) (o : Nat → DeliverResult) (sub : Subscription)
    (a : Nat) (st : PushState) : retrySend cfg o sub 0 a st = none := rfl

theorem retrySend_succ_zero (cfg : Nat) (o : Nat → DeliverResult)
    (sub : Subscription) (fuel : Nat) (st : PushState) :
    retrySend cfg o sub (fuel + 1) 0 st = some (st, Except.ok ()) := rfl

theorem retrySend_succ_succ (cfg : Nat) (o : Nat → DeliverResult)
    (sub : Subscription) (fuel rest : Nat) (st : PushState) :
    retrySend cfg o sub (fuel + 1) (rest + 1) st =
      (match send cfg o sub fuel st with
      | none => none
      | some (st1, Except.ok _) =>
        some ({ st1 with retried := st1.retried + 1 }, Except.ok ())
      | some (st1, Except.error _) =>
        if rest = 0 then some (st1, Except.ok ())
        else retrySend cfg o sub fuel rest { st1 with sleeps := st1.sleeps + 1 }) := rfl

/-- Neither send nor retrySend can ever reject at any fuel: every throw
inside the try block of send terminates in its catch-all handler, and the
code run inside the catch blocks themselves never throws in this model. -/
theorem noReject_sendRetry (cfg : Nat) (o : Nat → DeliverResult)
    (sub : Subscription) :
    ∀ fuel : Nat, (∀ st, noRejectB (send cfg o sub fuel st) = true) ∧
      (∀ a st, noRejectB (retrySend cfg o sub fuel a st) = true) := by
  intro fuel
  induction fuel with
  | zero => exact ⟨fun _ => rfl, fun _ _ => rfl⟩
  | succ fuel ih =>
    obtain ⟨ihs, ihr⟩ := ih
    refine ⟨fun st => ?_, fun a st => ?_⟩
    · rw [send_succ]
      split
      · split
        · rfl
        · rfl
        · rename_i st1 e1 heq
          have h2 := ihr cfg st
          rw [heq] at h2
          simp [noRejectB] at h2
      · split
        · rfl
        · rfl
        · split
          · rfl
          · rfl
          · rename_i st1 e1 heq
            have h2 := ihr cfg { st with calls := st.calls + 1 }
            rw [heq] at h2
            simp [noRejectB] at h2
    · match a with
      | 0 => rw [retrySend_succ_zero]; rfl
      | rest + 1 =>
        rw [retrySend_succ_succ]
        split
        · rfl
        · rfl
        · rename_i st1 e1 heq
          by_cases hr : rest = 0
          · simp only [hr, if_true]; rfl
          · simp only [hr, if_false]
            exact ihr rest { st1 with sleeps := st1.sleeps + 1 }

/-- When every attempt fails (invalid record, or an oracle that always
rejects with a transient error) and the retry count is positive, neither
send nor retrySend ever settles, at any fuel: the mutual recursion between
the catch block of send and the loop body of retrySend never exits. -/
theorem stuck_sendRetry (cfg : Nat) (o : Nat → DeliverResult)
    (sub : Subscription) (hcfg : 0 < cfg)
    (hfail : ∀ u : Unit, validateSubscription sub = Except.ok u →
      ∀ k, o k = DeliverResult.fail) :
    ∀ fuel : Nat, (∀ st, send cfg o sub fuel st = none) ∧
      (∀ a st, 0 < a → retrySend cfg o sub fuel a st = none) := by
  intro fuel
  induction fuel with
  | zero => exact ⟨fun _ => rfl, fun _ _ _ => rfl⟩
  | succ fuel ih =>
    obtain ⟨ihs, ihr⟩ := ih
    refine ⟨fun st => ?_, fun a st ha => ?_⟩
    · rw [send_succ]
      cases hv : validateSubscription sub with
      | error e => rw [ihr cfg st hcfg]
      | ok u =>
        rw [hfail u hv st.calls]
        rw [ihr cfg { st with calls := st.calls + 1 } hcfg]
    · match a, ha with
      | rest + 1, _ =>
        rw [retrySend_succ_succ, ihs st]

/-! ## Association list lemmas -/

theorem lookup_append_absent {α β : Type} [BEq α] [LawfulBEq α]
    (l : List (α × β)) (k : α) (v : β) (h : List.lookup k l = none) :
    List.lookup k (l ++ [(k, v)]) = some v := by
  induction l with
  | nil => simp [List.lookup]
  | cons p rest ih =>
    obtain ⟨k1, v1⟩ := p
    rw [List.cons_append]
    rw [List.lookup] at h ⊢
    cases hpk : (k == k1) with
    | true =>
      rw [hpk] at h
      simp at h
    | false =>
      rw [hpk] at h
      exact ih h

theorem lookup_filter_out {α β : Type} [BEq α] [LawfulBEq α]
    (l : List (α × β)) (k : α) :
    List.lookup k (l.filter (fun p => !(p.1 == k))) = none := by
  induction l with
  | nil => rfl
  | cons p rest ih =>
    obtain ⟨k1, v1⟩ := p
    cases hpk : (k1 == k) with
    | true => simp [List.filter_cons, hpk, ih]
    | false =>
      have hkp : (k == k1) = false := by
        have := beq_eq_false_iff_ne.mp hpk
        exact beq_eq_false_iff_ne.mpr (fun he => this he.symm)
      simp only [List.filter_cons, hpk, Bool.not_false, if_true]
      rw [List.lookup, hkp]
      exact ih

theorem lookup_map_set {β : Type} (l : List (String × β)) (k : String) (v : β)
    (h : (List.lookup k l).isSome = true) :
    List.lookup k (l.map (fun p => if p.1 = k then (k, v) else p)) = some v := by
  induction l with
  | nil => simp [List.lookup] at h
  | cons p rest ih =>
    obtain ⟨k1, v1⟩ := p
    simp only [List.map_cons]
    by_cases hk : k1 = k
    · rw [show (if (k1, v1).1 = k then (k, v) else (k1, v1)) = (k, v) from by simp [hk]]
      rw [List.lookup]
      simp
    · rw [show (if (k1, v1).1 = k then (k, v) else (k1, v1)) = (k1, v1) from by simp [hk]]
      have hkp : (k == k1) = false := beq_eq_false_iff_ne.mpr (fun he => hk he.symm)
      rw [List.lookup] at h ⊢
      rw [hkp] at h ⊢
      exact ih h

theorem lookup_setRoom_self (rs : Rooms) (k : String) (v : List Nat) :
    List.lookup k (setRoom rs k v) = some v := by
  unfold setRoom
  cases hhas : roomsHas rs k with
  | true =>
    simp only [hhas, if_true]
    exact lookup_map_set rs k v hhas
  | false =>
    simp only [hhas, Bool.false_eq_true, if_false]
    unfold roomsHas at hhas
    cases hl : List.lookup k rs with
    | some w =>
      rw [hl] at hhas
      simp at hhas
    | none => exact lookup_append_absent rs k v hl

theorem roomsHas_handleRoomJoin (rs : Rooms) (sid : Nat) (r : String) :
    roomsHas (handleRoomJoin rs sid r) r = true := by
  unfold roomsHas handleRoomJoin
  rw [lookup_setRoom_self]
  rfl

theorem leave_sole_member (rs : Rooms) (sid : Nat) (r : String)
    (h : List.lookup r rs = some [sid]) :
    List.lookup r (handleRoomLeave rs sid r) = none := by
  unfold handleRoomLeave
  have hhas : roomsHas rs r = true := by simp [roomsHas, h]
  simp only [hhas, if_true, h, Option.getD_some]
  simp only [List.filter_cons, beq_self_eq_true, Bool.not_true, Bool.false_eq_true,
    if_false, List.filter_nil, List.length_nil, if_true]
  exact lookup_filter_out rs r

theorem lookup_channel_new (reg : Registry) (n : String) (c : Channel)
    (h : List.lookup n reg = none) :
    List.lookup n (channel reg n c) = some c := by
  unfold channel
  rw [h]
  simp only [Option.isSome_none, Bool.false_eq_true, if_false]
  exact lookup_append_absent reg n c h

theorem name_ne_pushName (name : String) : name ++ pushSuffix ≠ name := by
  intro h
  have hl := congrArg String.length h
  rw [String.length_append] at hl
  have hp : pushSuffix.length = 17 := rfl
  omega

/-! ## Claim theorems -/

/-- C1, counterexample: on a tokenRequired channel with no configured signing
secret, the claim requires that the handler is never invoked and one error
event is emitted; the code skips the whole token gate when settings.secret
is falsy, invokes the handler, and emits nothing. -/
theorem claim1_counterexample :
    (handleEvent demoVerify none (some "Bearer good") "ch" 0
      { authorization := none, room := none } HandlerOutcome.done true).handlerInvoked
      = true ∧
    (handleEvent demoVerify none (some "Bearer good") "ch" 0
      { authorization := none, room := none } HandlerOutcome.done true).emissions
      = [] := by
  decide

/-- C1, amended: on a tokenRequired channel, when the signing secret is
configured (truthy), a credential whose verification fails (absent,
malformed, or invalid signature, all of which decode to undefined) makes the
dispatch throw a TypeError without invoking the handler and without emitting
anything; a credential decoding to an empty payload emits exactly one
name:error event with the unauthorized message to the room of the request
params (or the client when none was given) without invoking the handler; a
credential decoding to a non-empty payload attaches the session and invokes
the handler; and when the signing secret is missing the gate is skipped
entirely and the handler is invoked as if no token were required. -/
theorem claim1_token_gate_behaviour :
    ∀ (v : Verify) (secret sa : Option String) (ch : String) (sid : Nat)
      (p : Params) (oc : HandlerOutcome),
      truthyS secret = true →
      ((validToken v (secret.getD "") (jsOrS sa (jsOrS p.authorization "")) = none →
        handleEvent v secret sa ch sid p oc true =
          { emissions := [], handlerInvoked := false, thrown := some typeErrorMsg,
            unhandledRejection := none, sessionAttached := none }) ∧
      (validToken v (secret.getD "") (jsOrS sa (jsOrS p.authorization "")) = some [] →
        handleEvent v secret sa ch sid p oc true =
          { emissions := [errEmission ch (errTarget p.room sid) unauthorizedMsg],
            handlerInvoked := false, thrown := none, unhandledRejection := none,
            sessionAttached := none }) ∧
      (∀ s : SessionPayload, s ≠ [] →
        validToken v (secret.getD "") (jsOrS sa (jsOrS p.authorization "")) = some s →
        handleEvent v secret sa ch sid p oc true =
          invokeHandler ch (errTarget p.room sid) oc (some s)) ∧
      (∀ oc2 : HandlerOutcome, handleEvent v none sa ch sid p oc2 true =
        invokeHandler ch (errTarget p.room sid) oc2 none)) := by
  intro v secret sa ch sid p oc hsec
  refine ⟨fun hvt => ?_, fun hvt => ?_, fun s hs hvt => ?_, fun oc2 => rfl⟩
  · simp only [handleEvent, Bool.true_and, hsec, if_true, hvt]
  · simp only [handleEvent, Bool.true_and, hsec, if_true, hvt, List.length_nil]
    rfl
  · simp only [handleEvent, Bool.true_and, hsec, if_true, hvt]
    simp [List.length_eq_zero, hs]

/-- C1, witness for the amended theorem at concrete inputs: an invalid
bearer credential yields the TypeError outcome, and a credential decoding to
the empty object yields exactly one unauthorized error event addressed to
the room named in the params. -/
theorem claim1_witness :
    truthyS (some "s") = true ∧
    handleEvent demoVerify (some "s") (some "Bearer bad") "ch" 0
      { authorization := none, room := none } HandlerOutcome.done true =
      { emissions := [], handlerInvoked := false, thrown := some typeErrorMsg,
        unhandledRejection := none, sessionAttached := none } ∧
    handleEvent emptyishVerify (some "s") (some "Bearer empty") "ch" 0
      { authorization := none, room := some "r" } HandlerOutcome.done true =
      { emissions := [errEmission "ch" (errTarget (some "r") 0) unauthorizedMsg],
        handlerInvoked := false, thrown := none, unhandledRejection := none,
        sessionAttached := none } :=
  ⟨by decide,
   (claim1_token_gate_behaviour demoVerify (some "s") (some "Bearer bad") "ch" 0
      { authorization := none, room := none } HandlerOutcome.done (by decide)).1
      (by decide),
   (claim1_token_gate_behaviour emptyishVerify (some "s") (some "Bearer empty") "ch" 0
      { authorization := none, room := some "r" } HandlerOutcome.done (by decide)).2.1
      (by decide)⟩

/-- C2, counterexample: a handler returning a rejected promise; the claim
requires the rejection to be caught and turned into an error event, but the
dispatch path does not await the returned promise, emits nothing, and lets
the rejection escape as an unhandled rejection. -/
theorem claim2_counterexample :
    handleEvent demoVerify none none "ch" 0 { authorization := none, room := none }
      (HandlerOutcome.rejected "boom") false =
      { emissions := [], handlerInvoked := true, thrown := none,
        unhandledRejection := some "boom", sessionAttached := none } := by
  decide

/-- C2, amended: the dispatch try/catch turns a synchronous handler throw
into a single name:error event carrying the error message (or the raw
thrown value when it has no message) and lets nothing escape synchronously
from the handler invocation; but a rejected asynchronous result is not
caught and escapes the dispatch path as an unhandled rejection (and the
token gate preceding the try block can itself throw a TypeError, per C1). -/
theorem claim2_dispatch_exception_policy :
    ∀ (v : Verify) (secret sa : Option String) (ch : String) (sid : Nat)
      (p : Params) (m w : String),
      handleEvent v secret sa ch sid p HandlerOutcome.done false =
        { emissions := [], handlerInvoked := true, thrown := none,
          unhandledRejection := none, sessionAttached := none } ∧
      handleEvent v secret sa ch sid p (HandlerOutcome.throwMsg m) false =
        { emissions := [errEmission ch (errTarget p.room sid) m],
          handlerInvoked := true, thrown := none, unhandledRejection := none,
          sessionAttached := none } ∧
      handleEvent v secret sa ch sid p (HandlerOutcome.throwRaw w) false =
        { emissions := [errEmission ch (errTarget p.room sid) w],
          handlerInvoked := true, thrown := none, unhandledRejection := none,
          sessionAttached := none } ∧
      handleEvent v secret sa ch sid p (HandlerOutcome.rejected m) false =
        { emissions := [], handlerInvoked := true, thrown := none,
          unhandledRejection := some m, sessionAttached := none } :=
  fun _ _ _ _ _ _ _ _ => ⟨rfl, rfl, rfl, rfl⟩

/-- C3, counterexample: a connection joins room r on a room-enabled channel
and then disconnects; the claim requires the membership (and, as sole
member, the room entry) to be gone, but the disconnect listener only runs
the optional user callback and the stale membership persists. -/
theorem claim3_counterexample :
    runRooms roomRegOne 0 [RoomEvent.join "chat" "r", RoomEvent.disconnect] []
      = [("r", [0])] := by
  decide

/-- C3, amended: disconnecting never modifies the rooms index (the
disconnect listener only executes the optional off callback); the
connection is removed from the membership set of r only by an explicit
name:leave event on a room-enabled channel, and that leave deletes the room
entry when the connection was the sole member. -/
theorem claim3_disconnect_is_not_leave :
    ∀ (reg : Registry) (rs : Rooms) (sid : Nat) (c r : String),
      step reg rs sid RoomEvent.disconnect = rs ∧
      (roomSupportOf reg c = true → List.lookup r rs = some [sid] →
        List.lookup r (step reg rs sid (RoomEvent.leave c r)) = none) := by
  intro reg rs sid c r
  refine ⟨rfl, fun hsup hmem => ?_⟩
  simp only [step, hsup, if_true]
  exact leave_sole_member rs sid r hmem

/-- C3, witness: the amended theorem applied at a concrete registry, room
state, and connection. -/
theorem claim3_witness :
    step roomRegOne [("r", [0])] 0 RoomEvent.disconnect = [("r", [0])] ∧
    List.lookup "r" (step roomRegOne [("r", [0])] 0 (RoomEvent.leave "chat" "r"))
      = none :=
  ⟨(claim3_disconnect_is_not_leave roomRegOne [("r", [0])] 0 "chat" "r").1,
   (claim3_disconnect_is_not_leave roomRegOne [("r", [0])] 0 "chat" "r").2
     (by decide) (by decide)⟩

/-- C6, counterexample: with two distinct room-enabled channels c1 and c2,
joining room r through the join event of c1 stores the membership under the
plain key r (not a channel-qualified key), and a subsequent leave event of
channel c2 for r removes the very membership created through c1 — the claim
requires c2 to be unaffected by and unable to affect the c1 membership. -/
theorem claim6_counterexample :
    runRooms roomRegTwo 0 [RoomEvent.join "c1" "r"] [] = [("r", [0])] ∧
    runRooms roomRegTwo 0 [RoomEvent.join "c1" "r", RoomEvent.leave "c2" "r"] []
      = [] := by
  decide

/-- C6, amended: room membership is keyed by the room name alone and shared
across all channels: the effect of a join event is independent of which
room-enabled channel carried it, and it always creates or extends the entry
under the plain room key. -/
theorem claim6_rooms_shared_across_channels :
    ∀ (reg : Registry) (rs : Rooms) (sid : Nat) (c c2 r : String),
      roomSupportOf reg c = true → roomSupportOf reg c2 = true →
      step reg rs sid (RoomEvent.join c r) = step reg rs sid (RoomEvent.join c2 r) ∧
      roomsHas (step reg rs sid (RoomEvent.join c r)) r = true := by
  intro reg rs sid c c2 r h1 h2
  constructor
  · simp only [step, h1, h2, if_true]
  · simp only [step, h1, if_true]
    exact roomsHas_handleRoomJoin rs sid r

/-- C6, witness: the amended theorem applied at the two-channel registry. -/
theorem claim6_witness :
    step roomRegTwo [] 0 (RoomEvent.join "c1" "r")
      = step roomRegTwo [] 0 (RoomEvent.join "c2" "r") ∧
    roomsHas (step roomRegTwo [] 0 (RoomEvent.join "c1" "r")) "r" = true :=
  claim6_rooms_shared_across_channels roomRegTwo [] 0 "c1" "c2" "r"
    (by decide) (by decide)

/-- C7, counterexample: two runs that differ only in the handshake
credential of the other connection (connection 1) produce different
dispatch outcomes for the events of connection 0, because the middleware
stores every handshake authorization header into one shared server-level
field which handleEvent prefers over the per-message field. -/
theorem claim7_counterexample :
    runAuth demoVerify (some "s") none (leakScenario (some "Bearer good")) ≠
    runAuth demoVerify (some "s") none (leakScenario (some "Bearer bad")) := by
  decide

/-- C7, amended: the bearer credential used when dispatching an event is the
authorization header most recently captured by the middleware across all
connections (a single server-scoped field), falling back to the per-message
params.authorization; consequently the dispatch outcome of a message is
invariant under the handshake credential of the connection itself whenever
any later connection has handshaken, while C7 as stated fails because that
outcome can vary with the handshake credential of the other connection. -/
theorem claim7_last_handshake_wins :
    ∀ (v : Verify) (secret : Option String) (a a2 b : Option String)
      (sid1 sid2 sid3 : Nat) (ch : String) (p : Params) (oc : HandlerOutcome)
      (tr : Bool),
      runAuth v secret none
        [ConnEvent.connect sid1 a, ConnEvent.connect sid2 b,
         ConnEvent.message sid3 ch p oc tr] =
      runAuth v secret none
        [ConnEvent.connect sid1 a2, ConnEvent.connect sid2 b,
         ConnEvent.message sid3 ch p oc tr] :=
  fun _ _ _ _ _ _ _ _ _ _ _ _ => rfl

/-- C9: registering a channel name a second time, through channel or
customChannel in any combination, is a silent no-op — the registry is
unchanged and the first registration remains in effect. -/
theorem claim9_registration_idempotent :
    ∀ (reg : Registry) (n : String) (c c2 : Channel),
      channel (channel reg n c) n c2 = channel reg n c ∧
      customChannel (channel reg n c) n c2 = channel reg n c ∧
      channel (customChannel reg n c) n c2 = customChannel reg n c ∧
      customChannel (customChannel reg n c) n c2 = customChannel reg n c ∧
      (List.lookup n reg = none →
        List.lookup n (channel reg n c) = some c ∧
        List.lookup n (customChannel reg n c) = some c) := by
  intro reg n c c2
  have key : ∀ d2 : Channel, channel (channel reg n c) n d2 = channel reg n c := by
    intro d2
    cases hl : List.lookup n reg with
    | some w =>
      have h1 : channel reg n c = reg := by simp [channel, hl]
      rw [h1]
      simp [channel, hl]
    | none =>
      have h1 : channel reg n c = reg ++ [(n, c)] := by simp [channel, hl]
      have h2 : List.lookup n (channel reg n c) = some c := lookup_channel_new reg n c hl
      rw [h1] at h2 ⊢
      simp [channel, h2]
  have hcc : ∀ (r : Registry) (m : String) (d : Channel),
      customChannel r m d = channel r m d := fun _ _ _ => rfl
  refine ⟨key c2, ?_, ?_, ?_, fun hl => ⟨lookup_channel_new reg n c hl, ?_⟩⟩
  · rw [hcc]
    exact key c2
  · rw [hcc reg n c]
    exact key c2
  · rw [hcc reg n c, hcc]
    exact key c2
  · rw [hcc reg n c]
    exact lookup_channel_new reg n c hl

/-- C9, witness: the idempotence theorem applied at a concrete empty
registry and two distinct configurations. -/
theorem claim9_witness :
    channel (channel [] "chat" (Channel.mk 0 true false)) "chat" (Channel.mk 1 false true)
      = channel [] "chat" (Channel.mk 0 true false) ∧
    List.lookup "chat" (channel [] "chat" (Channel.mk 0 true false))
      = some (Channel.mk 0 true false) :=
  ⟨(claim9_registration_idempotent [] "chat" (Channel.mk 0 true false)
      (Channel.mk 1 false true)).1,
   ((claim9_registration_idempotent [] "chat" (Channel.mk 0 true false)
      (Channel.mk 1 false true)).2.2.2.2 (by decide)).1⟩

/-- C8, counterexample: registering channel X with a push manager stores the
configuration under the key X with the suffix push-notifiation as spelled in
the source, which differs from the qualified name X:push-notification
required by the claim. -/
theorem claim8_counterexample :
    channelP false [] "X" 7 [ChanArg.bool false, ChanArg.bool false, ChanArg.push]
      = Except.ok [("X:push-notifiation", ChannelP.mk 7 false false true)] ∧
    "X:push-notifiation" ≠ "X:push-notification" :=
  ⟨rfl, by decide⟩

/-- C8, amended: when channel is invoked with tokenRequired, roomSupport and
a push manager, the registry stores the channel under the qualified name
made of the human-readable name and the fixed (misspelled) suffix
push-notifiation; the plain name stays free, so a later non-push
registration of the same human-readable name does not collide; and success
and error events for the stored key are emitted under the qualified name
with the success or error suffix appended. -/
theorem claim8_qualified_name :
    ∀ (ds tr rs tr2 : Bool) (h h2 : Nat) (name : String),
      ∃ reg1 reg2 : RegistryP,
        channelP ds [] name h [ChanArg.bool tr, ChanArg.bool rs, ChanArg.push]
          = Except.ok reg1 ∧
        List.lookup (name ++ pushSuffix) reg1 = some (ChannelP.mk h tr rs true) ∧
        List.lookup name reg1 = none ∧
        customChannelP ds reg1 name h2 [ChanArg.bool tr2] = Except.ok reg2 ∧
        List.lookup name reg2 = some (ChannelP.mk h2 tr2 ds false) ∧
        List.lookup (name ++ pushSuffix) reg2 = some (ChannelP.mk h tr rs true) ∧
        successEventName (name ++ pushSuffix) = (name ++ pushSuffix) ++ ":success" ∧
        errorEventName (name ++ pushSuffix) = (name ++ pushSuffix) ++ ":error" := by
  intro ds tr rs tr2 h h2 name
  have hne2 : (name == name ++ pushSuffix) = false :=
    beq_eq_false_iff_ne.mpr (fun he => name_ne_pushName name he.symm)
  have h3 : List.lookup name [(name ++ pushSuffix, ChannelP.mk h tr rs true)] = none := by
    rw [List.lookup, hne2]
    rfl
  refine ⟨[(name ++ pushSuffix, ChannelP.mk h tr rs true)],
    [(name ++ pushSuffix, ChannelP.mk h tr rs true), (name, ChannelP.mk h2 tr2 ds false)],
    rfl, ?_, h3, ?_, ?_, ?_, rfl, rfl⟩
  · simp [List.lookup]
  · have hnn : ¬(name = name ++ pushSuffix) := fun he => name_ne_pushName name he.symm
    simp [customChannelP, h3, isWebPushLemurJS, boolArg, hnn]
  · rw [List.lookup, hne2, List.lookup]
    simp
  · simp [List.lookup]

/-- C4, code_bug evidence: with the default configuration (retries 3, delay
2000 ms) and a delivery that fails transiently five times before finally
succeeding, send performs six delivery attempts in total (the bound of one
initial plus three retry attempts is not respected), the retried counter
ends at five although only one retry attempt actually delivered, and no
sleep separates any of the attempts. The retry loop of retrySend cannot
iterate because send never rejects; retries happen through the mutual
recursion of the catch block of send and the first loop iteration of
retrySend. -/
theorem claim4_retry_loop_behaviour :
    retriesOrDefault (RetrySettings.mk none none) = 3 ∧
    delayOrDefault (RetrySettings.mk none none) = 2000 ∧
    send 3 (failsThen 5) goodSub 20 initialPushState =
      some (PushState.mk 6 ["s1"] 1 5 5 0, Except.ok ()) :=
  ⟨rfl, rfl, rfl⟩

/-- C5, code_bug evidence: on a record missing keys.auth, validation fails
before any delivery attempt (so no network call is made), but instead of
incrementing failed once and returning, send enters the retry path with the
same invalid record, and the mutual recursion of send and retrySend never
settles at any fuel under every delivery oracle — in particular no metric
is ever incremented. -/
theorem claim5_validation_failure_diverges :
    validateSubscription badSub = Except.error PushError.invalidKeys ∧
    ∀ (o : Nat → DeliverResult) (fuel : Nat) (st : PushState),
      send 3 o badSub fuel st = none := by
  refine ⟨rfl, fun o fuel st => ?_⟩
  refine (stuck_sendRetry 3 o badSub (by omega) (fun u hu => ?_) fuel).1 st
  rw [show validateSubscription badSub = Except.error PushError.invalidKeys from rfl]
    at hu
  exact Except.noConfusion hu

/-- C10, counterexample: under a delivery oracle that always fails with a
transient error, the promise returned by send on a valid record never
settles at any fuel — the claim that send always resolves is false. -/
theorem claim10_counterexample :
    ¬ ∃ (fuel : Nat) (r : PushState × Except PushError Unit),
        send 3 alwaysFail goodSub fuel initialPushState = some r := by
  rintro ⟨fuel, r, hr⟩
  rw [(stuck_sendRetry 3 alwaysFail goodSub (by omega) (fun _ _ _ => rfl) fuel).1
    initialPushState] at hr
  exact Option.noConfusion hr

/-- C10, amended: send never rejects — every validation error, 410 error and
other delivery error is consumed inside its own catch block, so no caller
(including retrySend and the all-settled fan-out) can ever observe a
rejected outcome from send; however send does not always resolve, because a
persistently failing delivery makes the send and retrySend recursion run
forever. -/
theorem claim10_send_never_rejects :
    ∀ (cfg : Nat) (o : Nat → DeliverResult) (sub : Subscription) (fuel : Nat)
      (st : PushState), noRejectB (send cfg o sub fuel st) = true :=
  fun cfg o sub fuel st => (noReject_sendRetry cfg o sub fuel).1 st
